import Mathlib

/-!
Shallow embedding of the manifest-based sync engine of the Logia repository
(src/src-tauri/src/sync_manifest.rs and src/src-tauri/src/google_drive.rs).

Timestamps (chrono DateTime<Utc>) are modelled as Int milliseconds since the
epoch; chrono's Duration::num_seconds truncates toward zero, which Int.div
matches exactly.  HashMap<String, FileState> is modelled as an association
list List (String × FileState); where a property needs key uniqueness (the
HashMap invariant) it carries an explicit Nodup hypothesis.  External
collaborators (filesystem, Google Drive API, serde_json) are modelled as
oracle parameters gathered in the Env structure; the engine logic itself is
translated statement by statement from the source.
-/

namespace Logia

/-- File status in the sync manifest (sync_manifest.rs, enum FileStatus). -/
inductive FileStatus
  | Synced
  | LocalModified
  | CloudModified
  | Conflict
  | DeletedLocal
  | DeletedCloud
  | NewLocal
  | NewCloud
  deriving DecidableEq

/-- State of a single file in the manifest (sync_manifest.rs, struct FileState). -/
structure FileState where
  local_hash : Option String
  cloud_hash : Option String
  local_modified : Option Int
  cloud_modified : Option Int
  status : FileStatus
  cloud_file_id : Option String
  deriving DecidableEq

/-- The sync manifest (sync_manifest.rs, struct SyncManifest); the files
HashMap becomes an association list. -/
structure SyncManifest where
  version : Nat
  device_id : String
  last_sync : Option Int
  files : List (String × FileState)
  deriving DecidableEq

/-- A single pending sync action (sync_manifest.rs, struct SyncAction). -/
structure SyncAction where
  path : String
  status : FileStatus
  local_modified : Option Int
  cloud_modified : Option Int
  deriving DecidableEq

/-- The sync plan (sync_manifest.rs, struct SyncPlan). -/
structure SyncPlan where
  uploads : List SyncAction
  downloads : List SyncAction
  conflicts : List SyncAction
  deletions_local : List SyncAction
  deletions_cloud : List SyncAction
  deriving DecidableEq

/-- SyncManifest::default(): version 1, empty file map; the random uuid
device_id is passed in as a parameter. -/
def freshManifest (deviceId : String) : SyncManifest :=
  { version := 1, device_id := deviceId, last_sync := none, files := [] }

/-- load_local_manifest (sync_manifest.rs lines 145-156).  The filesystem and
serde_json are oracles: fileOnDisk models path.exists(), readRes models
fs::read_to_string, parse models serde_json::from_str, freshId the uuid of a
freshly created default manifest.  Read and parse failures are wrapped with
the same message prefixes as the source and propagated. -/
def load_local_manifest (fileOnDisk : Bool) (readRes : Except String String)
    (parse : String → Except String SyncManifest) (freshId : String) :
    Except String SyncManifest :=
  if fileOnDisk then
    match readRes with
    | .error e => .error ("Failed to read manifest: " ++ e)
    | .ok content =>
      match parse content with
      | .error e => .error ("Failed to parse manifest: " ++ e)
      | .ok m => .ok m
  else
    .ok (freshManifest freshId)

/-- The FileState inserted by detect_local_changes for a scanned path that is
not in the manifest (sync_manifest.rs lines 231-238). -/
def newLocalState (hash : String) (tm : Int) : FileState :=
  { local_hash := some hash, cloud_hash := none, local_modified := some tm,
    cloud_modified := none, status := .NewLocal, cloud_file_id := none }

/-- detect_local_changes, branch for a manifest entry whose path appears in
the local scan (sync_manifest.rs lines 215-228). -/
def detectExisting (st : FileState) (hash : String) (tm : Int) : FileState :=
  if st.local_hash ≠ some hash then
    let st1 := { st with local_hash := some hash, local_modified := some tm }
    if st1.status = .Synced then { st1 with status := .LocalModified }
    else if st1.status = .CloudModified then { st1 with status := .Conflict }
    else st1
  else st

/-- detect_local_changes, branch for a manifest entry whose path is absent
from the local scan (sync_manifest.rs lines 244-253). -/
def detectMissing (st : FileState) : FileState :=
  if st.local_hash.isSome then
    let st1 := { st with local_hash := none, local_modified := none }
    if st1.cloud_hash.isSome then { st1 with status := .DeletedLocal } else st1
  else st

/-- The combined effect of the two detect_local_changes loops on one
pre-existing manifest entry: the scanned branch when its path is in the local
scan, the missing branch otherwise. -/
def detectEntry (localFiles : List (String × String × Int)) (path : String)
    (st : FileState) : FileState :=
  match localFiles.lookup path with
  | some ht => detectExisting st ht.1 ht.2
  | none => detectMissing st

/-- detect_local_changes (sync_manifest.rs lines 207-257).  localFiles is the
scan result path → (hash, mtime).  The two source loops (update or insert for
each scanned path; clear fields for manifest paths missing from the scan)
commute per key, so they are rendered as one value-map over the existing
entries followed by appending the entries for the newly scanned paths. -/
def detect_local_changes (manifest : SyncManifest)
    (localFiles : List (String × String × Int)) : SyncManifest :=
  let updated := manifest.files.map
    (fun e => (e.1, detectEntry localFiles e.1 e.2))
  let fresh := (localFiles.filter
      (fun lf => (manifest.files.lookup lf.1).isNone)).map
    (fun lf => (lf.1, newLocalState lf.2.1 lf.2.2))
  { manifest with files := updated ++ fresh }

/-- The SyncAction built for one manifest entry (sync_manifest.rs lines
264-269). -/
def toAction (path : String) (st : FileState) : SyncAction :=
  { path := path, status := st.status, local_modified := st.local_modified,
    cloud_modified := st.cloud_modified }

/-- SyncPlan::default(). -/
def emptyPlan : SyncPlan := ⟨[], [], [], [], []⟩

/-- One iteration of the build_sync_plan loop (sync_manifest.rs lines
271-290): dispatch the entry by status into the matching bucket. -/
def planStep (plan : SyncPlan) (path : String) (st : FileState) : SyncPlan :=
  let action := toAction path st
  match st.status with
  | .Synced => plan
  | .LocalModified | .NewLocal =>
      { plan with uploads := plan.uploads ++ [action] }
  | .CloudModified | .NewCloud =>
      { plan with downloads := plan.downloads ++ [action] }
  | .Conflict =>
      { plan with conflicts := plan.conflicts ++ [action] }
  | .DeletedLocal =>
      { plan with deletions_cloud := plan.deletions_cloud ++ [action] }
  | .DeletedCloud =>
      { plan with deletions_local := plan.deletions_local ++ [action] }

/-- build_sync_plan (sync_manifest.rs lines 260-294): one pass over the
manifest entries. -/
def build_sync_plan (files : List (String × FileState)) : SyncPlan :=
  files.foldl (fun pl e => planStep pl e.1 e.2) emptyPlan

/-- Whole seconds of a millisecond duration, truncated toward zero, as
chrono's Duration::num_seconds does. -/
def numSeconds (ms : Int) : Int := Int.tdiv ms 1000

/-- One remote listing entry (google_drive.rs lines 1033-1041: fields id,
name, modifiedTime of a Drive file). -/
structure CloudFile where
  name : Option String
  id : Option String
  modified_time : Option Int
  deriving DecidableEq

/-- The Synced-branch test of the cloud pass (google_drive.rs lines
1062-1063): both timestamps present and the difference in truncated whole
seconds exceeds 2. -/
def cloudSyncedCheck (cm lm : Option Int) : Bool :=
  match cm, lm with
  | some c, some l => decide (numSeconds (c - l) > 2)
  | _, _ => false

/-- The LocalModified-branch test of the cloud pass (google_drive.rs lines
1069-1070): both values present and unequal. -/
def cloudConflictCheck (cm prev : Option Int) : Bool :=
  match cm, prev with
  | some c, some p => c != p
  | _, _ => false

/-- update_manifest_from_cloud, body of the per-remote-entry branch for a
path already present in the manifest (google_drive.rs lines 1054-1074).
Note the source assigns state.cloud_modified = cloud_modified BEFORE the
LocalModified branch reads state.cloud_modified back for the comparison, so
cloudConflictCheck receives the already-overwritten st1.cloud_modified. -/
def processCloudEntry (st : FileState) (cm : Option Int) (cid : Option String) :
    FileState :=
  let st1 := { st with cloud_modified := cm, cloud_file_id := cid }
  if st1.status = .Synced then
    if cloudSyncedCheck cm st1.local_modified then { st1 with status := .CloudModified }
    else st1
  else if st1.status = .LocalModified then
    if cloudConflictCheck cm st1.cloud_modified then { st1 with status := .Conflict }
    else st1
  else st1

/-- The FileState inserted for a remote entry not present in the manifest
(google_drive.rs lines 1077-1084). -/
def newCloudState (cm : Option Int) (cid : Option String) : FileState :=
  { local_hash := none, cloud_hash := none, local_modified := none,
    cloud_modified := cm, status := .NewCloud, cloud_file_id := cid }

/-- Replace the value of the first entry with the given key. -/
def replaceEntry : List (String × FileState) → String → FileState →
    List (String × FileState)
  | [], _, _ => []
  | (p, st) :: rest, path, newSt =>
      if p = path then (path, newSt) :: rest
      else (p, st) :: replaceEntry rest path newSt

/-- Boolean test that the first list is a leading segment of the second
(models str::starts_with on the underlying characters). -/
def leadsWith : List Char → List Char → Bool
  | [], _ => true
  | _ :: _, [] => false
  | a :: as, b :: bs => if a = b then leadsWith as bs else false

/-- update_manifest_from_cloud, one iteration of the loop over the remote
listing (google_drive.rs lines 1046-1087): skip a nameless entry, record the
observed path, then update the manifest entry in place or insert NewCloud. -/
def cloudStep (subdir : String) (acc : List (String × FileState) × List String)
    (f : CloudFile) : List (String × FileState) × List String :=
  match f.name with
  | none => acc
  | some name =>
    let path := subdir ++ "/" ++ name
    let paths := path :: acc.2
    match acc.1.lookup path with
    | some st => (replaceEntry acc.1 path (processCloudEntry st f.modified_time f.id), paths)
    | none => (acc.1 ++ [(path, newCloudState f.modified_time f.id)], paths)

/-- update_manifest_from_cloud, trailing loop (google_drive.rs lines
1089-1098): mark entries of this collection not observed remotely. -/
def markDeletedCloud (subdir : String) (cloudPaths : List String)
    (files : List (String × FileState)) : List (String × FileState) :=
  files.map (fun e =>
    if leadsWith (subdir ++ "/").data e.1.data && !(cloudPaths.contains e.1) then
      if e.2.cloud_file_id.isSome && e.2.local_hash.isSome then
        (e.1,
         { e.2 with
             status := .DeletedCloud
             cloud_file_id := none
             cloud_modified := none })
      else e
    else e)

/-- update_manifest_from_cloud (google_drive.rs lines 1025-1101), for one
collection, given the remote listing for that collection's folder. -/
def update_manifest_from_cloud (files : List (String × FileState))
    (cloudFiles : List CloudFile) (subdir : String) : List (String × FileState) :=
  let res := cloudFiles.foldl (cloudStep subdir) (files, [])
  markDeletedCloud subdir res.2 res.1

/-- Applying the user's conflict resolutions to one manifest entry
(google_drive.rs lines 1171-1186). -/
def applyResolution (resolutionMap : List (String × String)) (path : String)
    (st : FileState) : FileState :=
  if st.status = .Conflict then
    match resolutionMap.lookup path with
    | some choice =>
        if choice = "local" then { st with status := .LocalModified }
        else if choice = "cloud" then { st with status := .CloudModified }
        else if choice = "keep_both" then { st with status := .LocalModified }
        else st
    | none => st
  else st

/-- The resolution-application pass (google_drive.rs lines 1166-1186).  The
source collects the resolutions into a HashMap, where a later duplicate path
overwrites an earlier one; reversing before a first-match lookup models
that. -/
def apply_resolutions (resolutions : List (String × String))
    (files : List (String × FileState)) : List (String × FileState) :=
  files.map (fun e => (e.1, applyResolution resolutions.reverse e.1 e.2))

/-- The four synced collections (google_drive.rs lines 1203-1213). -/
inductive Collection
  | notes
  | folders
  | kanban
  | trash
  deriving DecidableEq

/-- Which collection a relative path belongs to, by path prefix
(google_drive.rs lines 1203-1213); none models the `continue` branch. -/
def collectionOf (path : String) : Option Collection :=
  if leadsWith ("notes/").data path.data then some .notes
  else if leadsWith ("folders/").data path.data then some .folders
  else if leadsWith ("kanban/").data path.data then some .kanban
  else if leadsWith ("trash/").data path.data then some .trash
  else none

/-- Oracles for the executor's collaborators: localExists models
local_path.exists(), uploadRes the result of upload_file, downloadRes the
result of download_file, deleteRes the result of the remote delete call
(whose value the source discards), now the Utc::now() timestamp. -/
structure Env where
  localExists : String → Bool
  uploadRes : String → Except String Unit
  downloadRes : String → Except String Unit
  deleteRes : String → Except String Unit
  now : Int

/-- Per-collection upload/download counters of the executor (google_drive.rs
lines 1189-1196). -/
structure SyncCounters where
  notes_up : Nat
  notes_down : Nat
  folders_up : Nat
  folders_down : Nat
  kanban_up : Nat
  kanban_down : Nat
  trash_up : Nat
  trash_down : Nat
  deriving DecidableEq

def SyncCounters.zero : SyncCounters := ⟨0, 0, 0, 0, 0, 0, 0, 0⟩

/-- Add an entry's upload/download contribution to its collection's
counters. -/
def bumpCounters (col : Collection) (up down : Nat) (c : SyncCounters) :
    SyncCounters :=
  match col with
  | .notes => { c with notes_up := c.notes_up + up, notes_down := c.notes_down + down }
  | .folders => { c with folders_up := c.folders_up + up, folders_down := c.folders_down + down }
  | .kanban => { c with kanban_up := c.kanban_up + up, kanban_down := c.kanban_down + down }
  | .trash => { c with trash_up := c.trash_up + up, trash_down := c.trash_down + down }

/-- The executor's action on one manifest entry (google_drive.rs lines
1217-1263), returning the updated FileState and its (upload, download)
counter contribution.  Upload and download failures propagate as errors
(the source applies `?` to them); the remote delete's result is discarded
(`let _ = ...`), and so is the fs::rename of the DeletedCloud branch. -/
def executeEntry (env : Env) (path : String) (st : FileState) :
    Except String (FileState × Nat × Nat) :=
  match st.status with
  | .LocalModified | .NewLocal =>
    if env.localExists path then
      match env.uploadRes path with
      | .ok _ =>
          .ok ({ st with cloud_hash := st.local_hash,
                         cloud_modified := some env.now,
                         status := .Synced }, 1, 0)
      | .error e => .error e
    else .ok (st, 0, 0)
  | .CloudModified | .NewCloud =>
    match st.cloud_file_id with
    | some _ =>
      match env.downloadRes path with
      | .ok _ =>
          .ok ({ st with local_hash := st.cloud_hash,
                         local_modified := st.cloud_modified,
                         status := .Synced }, 0, 1)
      | .error e => .error e
    | none => .ok (st, 0, 0)
  | .DeletedLocal =>
    match st.cloud_file_id with
    | some _ =>
      let _ := env.deleteRes path
      .ok ({ st with cloud_file_id := none, cloud_hash := none,
                     cloud_modified := none }, 0, 0)
    | none => .ok (st, 0, 0)
  | .DeletedCloud =>
    if env.localExists path then
      .ok ({ st with local_hash := none, local_modified := none }, 0, 0)
    else .ok (st, 0, 0)
  | .Synced | .Conflict => .ok (st, 0, 0)

/-- The executor loop (google_drive.rs lines 1201-1264): entries outside the
four collections are skipped untouched; an error from executeEntry aborts the
whole pass, as `?` does in the source. -/
def executeEntries (env : Env) : List (String × FileState) →
    Except String (List (String × FileState) × SyncCounters)
  | [] => .ok ([], .zero)
  | (path, st) :: rest =>
    match collectionOf path with
    | none =>
      match executeEntries env rest with
      | .error e => .error e
      | .ok (rs, c) => .ok ((path, st) :: rs, c)
    | some col =>
      match executeEntry env path st with
      | .error e => .error e
      | .ok (st2, up, down) =>
        match executeEntries env rest with
        | .error e => .error e
        | .ok (rs, c) => .ok ((path, st2) :: rs, bumpCounters col up down c)

/-- The result summary returned by execute_sync_with_resolutions
(google_drive.rs lines 1277-1288). -/
structure SyncResult where
  notes_uploaded : Nat
  notes_downloaded : Nat
  folders_uploaded : Nat
  folders_downloaded : Nat
  kanban_uploaded : Nat
  kanban_downloaded : Nat
  trash_uploaded : Nat
  trash_downloaded : Nat
  needs_reload : Bool
  message : String
  deriving DecidableEq

/-- execute_sync_with_resolutions, resolution and execution phase
(google_drive.rs lines 1166-1289): apply the user's conflict resolutions,
run the executor over every manifest entry, and summarise the counters.
The preceding reconciliation phase (detect_local_changes and the four
update_manifest_from_cloud passes) and the final manifest persistence are
outside this definition; files is the already-reconciled manifest map. -/
def execute_sync_with_resolutions (env : Env)
    (files : List (String × FileState))
    (resolutions : List (String × String)) :
    Except String (List (String × FileState) × SyncResult) :=
  let resolved := apply_resolutions resolutions files
  match executeEntries env resolved with
  | .error e => .error e
  | .ok (files2, c) =>
    let totalUp := c.notes_up + c.folders_up + c.kanban_up + c.trash_up
    let totalDown := c.notes_down + c.folders_down + c.kanban_down + c.trash_down
    .ok (files2,
      { notes_uploaded := c.notes_up, notes_downloaded := c.notes_down,
        folders_uploaded := c.folders_up, folders_downloaded := c.folders_down,
        kanban_uploaded := c.kanban_up, kanban_downloaded := c.kanban_down,
        trash_uploaded := c.trash_up, trash_downloaded := c.trash_down,
        needs_reload := c.notes_down != 0 || c.folders_down != 0 || c.kanban_down != 0,
        message := "Sync complete: " ++ toString totalUp ++ " uploaded, " ++
                   toString totalDown ++ " downloaded" })

/-! Helper predicates naming, per bucket, the statuses that build_sync_plan
dispatches into that bucket. -/

def isUpload : FileStatus → Bool
  | .LocalModified | .NewLocal => true
  | _ => false

def isDownload : FileStatus → Bool
  | .CloudModified | .NewCloud => true
  | _ => false

def isConflictS : FileStatus → Bool
  | .Conflict => true
  | _ => false

def isDelLocal : FileStatus → Bool
  | .DeletedCloud => true
  | _ => false

def isDelCloud : FileStatus → Bool
  | .DeletedLocal => true
  | _ => false

/-! Association-list helper lemmas. -/

theorem lookup_map_value (f : String → FileState → FileState)
    (l : List (String × FileState)) (p : String) :
    (l.map (fun e => (e.1, f e.1 e.2))).lookup p = (l.lookup p).map (f p) := by
  induction l with
  | nil => rfl
  | cons a t ih =>
    obtain ⟨k, v⟩ := a
    by_cases h : p = k
    · subst h
      simp [List.lookup]
    · have hb : (p == k) = false := by simp [h]
      simp [List.lookup, hb, ih]

theorem lookup_append_some {l1 l2 : List (String × FileState)} {p : String}
    {v : FileState} (h : l1.lookup p = some v) :
    (l1 ++ l2).lookup p = some v := by
  induction l1 with
  | nil => simp [List.lookup] at h
  | cons a t ih =>
    obtain ⟨k, w⟩ := a
    by_cases hpk : p = k
    · subst hpk
      simp [List.lookup] at h ⊢
      exact h
    · have hb : (p == k) = false := by simp [hpk]
      simp [List.lookup, hb] at h ⊢
      exact ih h

theorem lookup_none_iff {l : List (String × FileState)} {p : String} :
    l.lookup p = none ↔ p ∉ l.map Prod.fst := by
  induction l with
  | nil => simp [List.lookup]
  | cons a t ih =>
    obtain ⟨k, w⟩ := a
    by_cases hpk : p = k
    · subst hpk
      simp [List.lookup]
    · have hb : (p == k) = false := by simp [hpk]
      simp [List.lookup, hb, ih, hpk]

theorem keys_map_value (f : String → FileState → FileState)
    (l : List (String × FileState)) :
    (l.map (fun e => (e.1, f e.1 e.2))).map Prod.fst = l.map Prod.fst := by
  induction l with
  | nil => rfl
  | cons a t ih => simp [ih]

theorem countP_key_absent {l : List (String × FileState)} {p : String}
    (h : p ∉ l.map Prod.fst) (q : String × FileState → Bool) :
    l.countP (fun e => e.1 == p && q e) = 0 := by
  induction l with
  | nil => simp
  | cons a t ih =>
    obtain ⟨k, w⟩ := a
    simp only [List.map, List.mem_cons, not_or] at h
    have hk : (k == p) = false := by
      simp only [beq_eq_false_iff_ne, ne_eq]
      exact fun he => h.1 he.symm
    simp [List.countP_cons, hk, ih h.2]

theorem countP_key_unique {l : List (String × FileState)} {p : String}
    {v : FileState} (hnd : (l.map Prod.fst).Nodup) (hl : l.lookup p = some v)
    (q : String × FileState → Bool) :
    l.countP (fun e => e.1 == p && q e) = if q (p, v) then 1 else 0 := by
  induction l with
  | nil => simp [List.lookup] at hl
  | cons a t ih =>
    obtain ⟨k, w⟩ := a
    simp only [List.map, List.nodup_cons] at hnd
    by_cases hpk : p = k
    · subst hpk
      simp only [List.lookup, beq_self_eq_true] at hl
      have hv : w = v := by simpa using hl
      subst hv
      have ht0 : t.countP (fun e => e.1 == p && q e) = 0 :=
        countP_key_absent hnd.1 q
      simp [List.countP_cons, ht0]
    · have hb : (p == k) = false := by simp [hpk]
      have hb2 : (k == p) = false := by
        simp only [beq_eq_false_iff_ne, ne_eq]
        exact fun he => hpk he.symm
      simp only [List.lookup, hb] at hl
      simp [List.countP_cons, hb2, ih hnd.2 hl]

theorem build_plan_foldl (files : List (String × FileState)) (acc : SyncPlan) :
    files.foldl (fun pl e => planStep pl e.1 e.2) acc =
      { uploads := acc.uploads ++
          (files.filter (fun e => isUpload e.2.status)).map (fun e => toAction e.1 e.2),
        downloads := acc.downloads ++
          (files.filter (fun e => isDownload e.2.status)).map (fun e => toAction e.1 e.2),
        conflicts := acc.conflicts ++
          (files.filter (fun e => isConflictS e.2.status)).map (fun e => toAction e.1 e.2),
        deletions_local := acc.deletions_local ++
          (files.filter (fun e => isDelLocal e.2.status)).map (fun e => toAction e.1 e.2),
        deletions_cloud := acc.deletions_cloud ++
          (files.filter (fun e => isDelCloud e.2.status)).map (fun e => toAction e.1 e.2) } := by
  induction files generalizing acc with
  | nil => simp
  | cons e t ih =>
    obtain ⟨p, st⟩ := e
    rw [List.foldl_cons, ih]
    cases h : st.status <;>
      simp [planStep, h, isUpload, isDownload, isConflictS, isDelLocal,
        isDelCloud, List.filter_cons, List.append_assoc]

theorem build_plan_buckets (files : List (String × FileState)) :
    build_sync_plan files =
      { uploads :=
          (files.filter (fun e => isUpload e.2.status)).map (fun e => toAction e.1 e.2),
        downloads :=
          (files.filter (fun e => isDownload e.2.status)).map (fun e => toAction e.1 e.2),
        conflicts :=
          (files.filter (fun e => isConflictS e.2.status)).map (fun e => toAction e.1 e.2),
        deletions_local :=
          (files.filter (fun e => isDelLocal e.2.status)).map (fun e => toAction e.1 e.2),
        deletions_cloud :=
          (files.filter (fun e => isDelCloud e.2.status)).map (fun e => toAction e.1 e.2) } := by
  have h := build_plan_foldl files emptyPlan
  simpa [build_sync_plan, emptyPlan] using h

theorem countP_bucket (files : List (String × FileState)) (p : String)
    (v : FileState) (hnd : (files.map Prod.fst).Nodup)
    (hl : files.lookup p = some v) (b : FileStatus → Bool) :
    ((files.filter (fun e => b e.2.status)).map
        (fun e => toAction e.1 e.2)).countP (fun a => a.path == p) =
      if b v.status then 1 else 0 := by
  rw [List.countP_map, List.countP_filter]
  have hc : (fun e => ((fun a => a.path == p) ∘ fun e => toAction e.1 e.2) e &&
      b e.2.status) = (fun e : String × FileState => e.1 == p && b e.2.status) := by
    funext e
    rfl
  rw [hc]
  exact countP_key_unique hnd hl (fun e => b e.2.status)

theorem detect_lookup (m : SyncManifest) (lf : List (String × String × Int))
    (p : String) (st : FileState) (hl : m.files.lookup p = some st) :
    (detect_local_changes m lf).files.lookup p = some (detectEntry lf p st) := by
  unfold detect_local_changes
  apply lookup_append_some
  rw [lookup_map_value (detectEntry lf) m.files p, hl]
  rfl

theorem detect_keys_nodup (m : SyncManifest) (lf : List (String × String × Int))
    (hm : (m.files.map Prod.fst).Nodup) (hlf : (lf.map Prod.fst).Nodup) :
    ((detect_local_changes m lf).files.map Prod.fst).Nodup := by
  unfold detect_local_changes
  rw [List.map_append, List.nodup_append]
  refine ⟨?_, ?_, ?_⟩
  · rw [keys_map_value (detectEntry lf) m.files]
    exact hm
  · have hsub : ((lf.filter (fun e => (m.files.lookup e.1).isNone)).map
        Prod.fst).Sublist (lf.map Prod.fst) :=
      (List.filter_sublist lf).map Prod.fst
    have hkeys : ((lf.filter (fun e => (m.files.lookup e.1).isNone)).map
          (fun e => (e.1, newLocalState e.2.1 e.2.2))).map Prod.fst =
        (lf.filter (fun e => (m.files.lookup e.1).isNone)).map Prod.fst := by
      simp [List.map_map, Function.comp]
    rw [hkeys]
    exact hlf.sublist hsub
  · intro a ha hb
    rw [keys_map_value (detectEntry lf) m.files] at ha
    simp only [List.map_map, List.mem_map, Function.comp, List.mem_filter] at hb
    obtain ⟨e, ⟨hmem, hnone⟩, heq⟩ := hb
    have : m.files.lookup e.1 = none := by
      cases hcase : m.files.lookup e.1 with
      | none => rfl
      | some v => rw [hcase] at hnone; simp at hnone
    have hnot : e.1 ∉ m.files.map Prod.fst := lookup_none_iff.mp this
    rw [heq] at hnot
    exact hnot ha

/-! Concrete fixtures used by the counterexamples and witnesses. -/

/-- An all-success collaborator environment. -/
def demoEnv : Env :=
  { localExists := fun _ => true, uploadRes := fun _ => .ok (),
    downloadRes := fun _ => .ok (), deleteRes := fun _ => .ok (), now := 77 }

/-- A locally modified, previously synced entry: both hashes known, recorded
cloud_modified 1000 ms. -/
def stLM1 : FileState :=
  { local_hash := some "h2", cloud_hash := some "h1", local_modified := some 5000,
    cloud_modified := some 1000, status := .LocalModified, cloud_file_id := some "id1" }

/-- A synced entry with local_modified 0 ms and recorded cloud_modified
999000 ms. -/
def stSy1 : FileState :=
  { local_hash := some "h1", cloud_hash := some "h1", local_modified := some 0,
    cloud_modified := some 999000, status := .Synced, cloud_file_id := some "id1" }

/-- An unresolved conflict entry. -/
def stCf1 : FileState :=
  { local_hash := some "h2", cloud_hash := some "h1", local_modified := some 10,
    cloud_modified := some 20, status := .Conflict, cloud_file_id := some "idc" }

/-- A locally deleted, cloud-present entry. -/
def stDel1 : FileState :=
  { local_hash := none, cloud_hash := some "h1", local_modified := none,
    cloud_modified := some 50, status := .DeletedLocal, cloud_file_id := some "idd" }

/-- A cloud-modified entry that has no cloud_file_id. -/
def stCm0 : FileState :=
  { local_hash := some "h1", cloud_hash := some "h3", local_modified := some 5,
    cloud_modified := some 60, status := .CloudModified, cloud_file_id := none }

/-- Remote listing for C1: the file was edited remotely at 999000 ms, while
the manifest had recorded cloud_modified 1000 ms. -/
def c1Cloud : List CloudFile :=
  [{ name := some "b.json", id := some "id1", modified_time := some 999000 }]

/-- C1: the claim says a LocalModified entry whose newly observed
cloud_modified differs from the recorded one is escalated to Conflict.  The
source overwrites state.cloud_modified with the new value before comparing
(google_drive.rs line 1056 versus 1069), so the comparison is new-against-new
and never fires: at an input where the remote mtime (999000 ms) differs from
the recorded cloud_modified (1000 ms), the cloud pass ends with status
LocalModified, not Conflict. -/
theorem C1_cloud_pass_keeps_local_modified :
    stLM1.cloud_modified = some 1000 ∧
    update_manifest_from_cloud [("notes/b.json", stLM1)] c1Cloud ("notes") =
      [("notes/b.json", { stLM1 with cloud_modified := some 999000 })] ∧
    ({ stLM1 with cloud_modified := some 999000 } : FileState).status =
      FileStatus.LocalModified :=
  ⟨rfl, rfl, rfl⟩

/-- C3 counterexample: a Synced entry whose newly observed remote mtime
equals the previously recorded cloud_modified (999000 ms), so by the claim it
must not be escalated; but local_modified is 0 ms, and the code compares the
remote mtime against local_modified, so it escalates to CloudModified. -/
theorem C3_counterexample_escalates_without_cloud_advance :
    stSy1.cloud_modified = some 999000 ∧
    (processCloudEntry stSy1 (some 999000) (some "id1")).status =
      FileStatus.CloudModified ∧
    ¬ numSeconds ((999000 : Int) - 999000) > 2 := by
  refine ⟨rfl, rfl, by decide⟩

/-- C3 (amended): for a Synced manifest entry, the cloud pass escalates to
CloudModified exactly when the remote mtime is present and exceeds the
previously recorded local_modified by more than 2 truncated whole seconds;
with no remote mtime the entry stays Synced. -/
theorem C3_synced_escalation_iff (st : FileState) (c l : Int)
    (cid : Option String) (hs : st.status = .Synced)
    (hlm : st.local_modified = some l) :
    ((processCloudEntry st (some c) cid).status = FileStatus.CloudModified ↔
      numSeconds (c - l) > 2) ∧
    (processCloudEntry st none cid).status = FileStatus.Synced := by
  constructor
  · by_cases hgt : numSeconds (c - l) > 2
    · simp [processCloudEntry, cloudSyncedCheck, hs, hlm, hgt]
    · simp [processCloudEntry, cloudSyncedCheck, hs, hlm, hgt]
  · simp [processCloudEntry, cloudSyncedCheck, hs]

/-- C3 witness: at local_modified 0 and remote mtime 5000 ms the iff holds
and the difference is 5 whole seconds. -/
theorem C3_synced_escalation_iff_witness :
    stSy1.status = FileStatus.Synced ∧ stSy1.local_modified = some 0 ∧
    (((processCloudEntry stSy1 (some 5000) (some "id1")).status =
        FileStatus.CloudModified ↔ numSeconds ((5000 : Int) - 0) > 2) ∧
     (processCloudEntry stSy1 none (some "id1")).status = FileStatus.Synced) :=
  ⟨rfl, rfl, C3_synced_escalation_iff stSy1 5000 0 (some "id1") rfl rfl⟩

/-- C5 counterexample: a manifest holding one unresolved Conflict entry and
an empty resolution list still executes to completion and reports the
success message with zero counts, leaving the entry in Conflict — it does
not block a clean run. -/
theorem C5_counterexample_conflict_run_completes :
    stCf1.status = FileStatus.Conflict ∧
    execute_sync_with_resolutions demoEnv [("notes/c.json", stCf1)] [] =
      .ok ([("notes/c.json", stCf1)],
        { notes_uploaded := 0, notes_downloaded := 0, folders_uploaded := 0,
          folders_downloaded := 0, kanban_uploaded := 0, kanban_downloaded := 0,
          trash_uploaded := 0, trash_downloaded := 0, needs_reload := false,
          message := "Sync complete: 0 uploaded, 0 downloaded" }) :=
  ⟨rfl, rfl⟩

/-- C5 (amended): an entry still in Conflict when the executor runs is a
no-op — its FileState is unchanged, it contributes no counters, and it does
not make the run fail; the sync completes and reports success, the conflict
merely persists in the manifest. -/
theorem C5_conflict_entry_is_noop (env : Env) (path : String) (st : FileState)
    (h : st.status = FileStatus.Conflict) :
    executeEntry env path st = .ok (st, 0, 0) := by
  simp [executeEntry, h]

/-- C5 witness. -/
theorem C5_conflict_entry_is_noop_witness :
    executeEntry demoEnv ("notes/c.json") stCf1 = .ok (stCf1, 0, 0) :=
  C5_conflict_entry_is_noop demoEnv ("notes/c.json") stCf1 rfl

/-- The all-success environment with a failing remote delete. -/
def envDelFail : Env :=
  { demoEnv with deleteRes := fun _ => .error ("delete failed") }

/-- C6 counterexample: for a DeletedLocal entry the executor's outcome when
the remote delete fails is identical to the outcome when it succeeds — an
untouched .ok with cleared cloud linkage and zero counters — so the failure
is silently dropped, not recorded anywhere. -/
theorem C6_counterexample_delete_failure_unrecorded :
    executeEntries envDelFail [("notes/d.json", stDel1)] =
      executeEntries demoEnv [("notes/d.json", stDel1)] ∧
    executeEntries envDelFail [("notes/d.json", stDel1)] =
      .ok ([("notes/d.json",
             { stDel1 with cloud_file_id := none, cloud_hash := none,
                           cloud_modified := none })], SyncCounters.zero) :=
  ⟨rfl, rfl⟩

/-- C6 (amended): a DeletedLocal entry with a cloud_file_id gets a
best-effort remote delete and its cloud linkage cleared; the delete's result
is discarded, so for every environment — whatever deleteRes returns — the
outcome is the same successful one. -/
theorem C6_deleted_local_clears_linkage (env : Env) (path : String)
    (st : FileState) (cid : String) (h : st.status = FileStatus.DeletedLocal)
    (hc : st.cloud_file_id = some cid) :
    executeEntry env path st =
      .ok ({ st with cloud_file_id := none, cloud_hash := none,
                     cloud_modified := none }, 0, 0) := by
  simp [executeEntry, h, hc]

/-- C6 witness: applied in the environment whose remote delete fails. -/
theorem C6_deleted_local_clears_linkage_witness :
    executeEntry envDelFail ("notes/d.json") stDel1 =
      .ok ({ stDel1 with cloud_file_id := none, cloud_hash := none,
                         cloud_modified := none }, 0, 0) :=
  C6_deleted_local_clears_linkage envDelFail ("notes/d.json") stDel1 ("idd") rfl rfl

/-- The all-success environment in which no local file exists. -/
def envNoLocal : Env := { demoEnv with localExists := fun _ => false }

/-- C10: an entry whose precondition fails is skipped with its FileState
unchanged and no counter contribution: an upload-status entry whose local
file does not exist, and a download-status entry without a cloud_file_id. -/
theorem C10_precondition_skip (env : Env) (path : String) (st : FileState) :
    ((st.status = FileStatus.LocalModified ∨ st.status = FileStatus.NewLocal) →
      env.localExists path = false → executeEntry env path st = .ok (st, 0, 0)) ∧
    ((st.status = FileStatus.CloudModified ∨ st.status = FileStatus.NewCloud) →
      st.cloud_file_id = none → executeEntry env path st = .ok (st, 0, 0)) := by
  constructor
  · rintro (h | h) hex <;> simp [executeEntry, h, hex]
  · rintro (h | h) hc <;> simp [executeEntry, h, hc]

/-- C10 witness: a LocalModified entry with no local file, and a
CloudModified entry with no cloud_file_id, are both left untouched. -/
theorem C10_precondition_skip_witness :
    executeEntry envNoLocal ("notes/a.json") stLM1 = .ok (stLM1, 0, 0) ∧
    executeEntry demoEnv ("notes/e.json") stCm0 = .ok (stCm0, 0, 0) :=
  ⟨(C10_precondition_skip envNoLocal ("notes/a.json") stLM1).1 (Or.inl rfl) rfl,
   (C10_precondition_skip demoEnv ("notes/e.json") stCm0).2 (Or.inl rfl) rfl⟩

/-- The all-success environment in which uploading notes/a.json fails. -/
def envUpFail : Env :=
  { demoEnv with
      uploadRes := fun p =>
        if p == "notes/a.json" then .error ("Upload failed") else .ok () }

/-- A second locally modified entry, for batch counterexamples. -/
def stLM2 : FileState :=
  { local_hash := some "h5", cloud_hash := some "h4", local_modified := some 8000,
    cloud_modified := some 2000, status := .LocalModified, cloud_file_id := some "id2" }

/-- C2 counterexample: with two pending uploads, a failure on the first
file's upload makes the whole pass return that error — the second entry is
never processed and no per-collection counts are reported, contradicting
per-file independence. -/
theorem C2_counterexample_one_failure_aborts :
    execute_sync_with_resolutions envUpFail
      [("notes/a.json", stLM1), ("notes/b.json", stLM2)] [] =
      .error ("Upload failed") :=
  rfl

/-- C2 (amended): an upload or download failure aborts the executor pass —
the pass returns that error whatever entries remain — while remote deletes
stay best-effort; only a fully successful pass reports the per-collection
uploaded/downloaded counts. -/
theorem C2_failure_aborts_pass (env : Env) (path : String) (st : FileState)
    (rest : List (String × FileState)) (e : String) (col : Collection)
    (hcol : collectionOf path = some col) :
    ((st.status = FileStatus.LocalModified ∨ st.status = FileStatus.NewLocal) →
      env.localExists path = true → env.uploadRes path = .error e →
      executeEntries env ((path, st) :: rest) = .error e) ∧
    ((st.status = FileStatus.CloudModified ∨ st.status = FileStatus.NewCloud) →
      (∃ cid, st.cloud_file_id = some cid) → env.downloadRes path = .error e →
      executeEntries env ((path, st) :: rest) = .error e) := by
  constructor
  · rintro (h | h) hex hup <;>
      simp [executeEntries, hcol, executeEntry, h, hex, hup]
  · rintro (h | h) ⟨cid, hc⟩ hdown <;>
      simp [executeEntries, hcol, executeEntry, h, hc, hdown]

/-- C2 witness: the failing upload of the counterexample aborts regardless
of the pending second entry. -/
theorem C2_failure_aborts_pass_witness :
    executeEntries envUpFail [("notes/a.json", stLM1), ("notes/b.json", stLM2)] =
      .error ("Upload failed") :=
  (C2_failure_aborts_pass envUpFail ("notes/a.json") stLM1
      [("notes/b.json", stLM2)] ("Upload failed") Collection.notes rfl).1
    (Or.inl rfl) rfl rfl

/-- A never-synced entry with no cloud presence. -/
def stNL1 : FileState :=
  { local_hash := some "h1", cloud_hash := none, local_modified := some 5,
    cloud_modified := none, status := .NewLocal, cloud_file_id := none }

/-- The manifest holding only stNL1. -/
def c4M : SyncManifest :=
  { version := 1, device_id := "dev", last_sync := none,
    files := [("notes/n.json", stNL1)] }

/-- C4 counterexample: a manifest entry with a local_hash but no cloud
presence whose path is absent from the local scan is NOT dropped from the
manifest — detect_local_changes keeps it, merely clearing its local fields. -/
theorem C4_counterexample_entry_not_dropped :
    (detect_local_changes c4M []).files.lookup ("notes/n.json") =
      some { stNL1 with local_hash := none, local_modified := none } :=
  rfl

/-- C4 (amended): for a manifest path absent from the local scan that had a
local_hash, detect_local_changes clears local_hash and local_modified; with
cloud presence (a cloud_hash) the status becomes DeletedLocal, and without
cloud presence the entry is retained with its status unchanged rather than
dropped. -/
theorem C4_missing_local_file (m : SyncManifest)
    (lf : List (String × String × Int)) (p : String) (st : FileState)
    (hl : m.files.lookup p = some st) (habs : lf.lookup p = none)
    (hhash : st.local_hash.isSome = true) :
    (detect_local_changes m lf).files.lookup p = some (detectMissing st) ∧
    (detectMissing st).local_hash = none ∧
    (detectMissing st).local_modified = none ∧
    (st.cloud_hash.isSome = true → (detectMissing st).status = FileStatus.DeletedLocal) ∧
    (st.cloud_hash = none → (detectMissing st).status = st.status) := by
  refine ⟨?_, ?_, ?_, ?_, ?_⟩
  · have h1 := detect_lookup m lf p st hl
    rw [h1]
    simp [detectEntry, habs]
  · cases hch : st.cloud_hash <;> simp [detectMissing, hhash, hch]
  · cases hch : st.cloud_hash <;> simp [detectMissing, hhash, hch]
  · intro hc
    simp [detectMissing, hhash, hc]
  · intro hc
    simp [detectMissing, hhash, hc]

/-- A previously synced entry with cloud presence, used for the C4 witness. -/
def stSy2 : FileState :=
  { local_hash := some "h1", cloud_hash := some "h1", local_modified := some 5,
    cloud_modified := some 6, status := .Synced, cloud_file_id := some "id4" }

/-- The manifest holding only stSy2. -/
def c4bM : SyncManifest :=
  { version := 1, device_id := "dev", last_sync := none,
    files := [("notes/m.json", stSy2)] }

/-- C4 witness: a synced, cloud-present entry deleted locally is kept with
cleared local fields and status DeletedLocal. -/
theorem C4_missing_local_file_witness :
    (detect_local_changes c4bM []).files.lookup ("notes/m.json") =
      some (detectMissing stSy2) ∧
    (detectMissing stSy2).local_hash = none ∧
    (detectMissing stSy2).local_modified = none ∧
    (stSy2.cloud_hash.isSome = true →
      (detectMissing stSy2).status = FileStatus.DeletedLocal) ∧
    (stSy2.cloud_hash = none → (detectMissing stSy2).status = stSy2.status) :=
  C4_missing_local_file c4bM [] ("notes/m.json") stSy2 rfl rfl rfl

/-- A parse oracle that always fails, modelling a corrupt manifest file. -/
def badParse : String → Except String SyncManifest := fun _ => .error ("bad json")

/-- C7 counterexample: with the manifest file present but corrupt (the parse
fails), load_local_manifest returns the parse error instead of falling back
to a fresh default manifest. -/
theorem C7_counterexample_corrupt_manifest_errors :
    load_local_manifest true (.ok ("garbage")) badParse ("dev") =
      .error ("Failed to parse manifest: bad json") :=
  rfl

/-- C7 (amended): only a missing manifest file yields a fresh default
manifest; a read failure or a corrupt (unparsable) manifest propagates an
error rather than falling back, and a successful parse returns the parsed
manifest. -/
theorem C7_load_manifest_behaviour (readErr s e2 freshId : String)
    (mm : SyncManifest) (readRes : Except String String)
    (parse : String → Except String SyncManifest) :
    (load_local_manifest false readRes parse freshId =
       .ok (freshManifest freshId)) ∧
    (load_local_manifest true (.error readErr) parse freshId =
       .error ("Failed to read manifest: " ++ readErr)) ∧
    (parse s = .error e2 →
       load_local_manifest true (.ok s) parse freshId =
         .error ("Failed to parse manifest: " ++ e2)) ∧
    (parse s = .ok mm →
       load_local_manifest true (.ok s) parse freshId = .ok mm) := by
  refine ⟨rfl, rfl, ?_, ?_⟩
  · intro h
    simp [load_local_manifest, h]
  · intro h
    simp [load_local_manifest, h]

/-- C7 witness: missing file gives the fresh manifest, an unreadable file
propagates the read error, and the corrupt-file branch applies at badParse. -/
theorem C7_load_manifest_behaviour_witness :
    (load_local_manifest false (.ok ("x")) badParse ("dev") =
       .ok (freshManifest ("dev"))) ∧
    (load_local_manifest true (.error ("io gone")) badParse ("dev") =
       .error ("Failed to read manifest: io gone")) ∧
    (badParse "garbage" = .error ("bad json") →
       load_local_manifest true (.ok ("garbage")) badParse ("dev") =
         .error ("Failed to parse manifest: bad json")) ∧
    (badParse "garbage" = .ok (freshManifest ("dev")) →
       load_local_manifest true (.ok ("garbage")) badParse ("dev") =
         .ok (freshManifest ("dev"))) :=
  C7_load_manifest_behaviour ("io gone") ("garbage") ("bad json") ("dev")
    (freshManifest ("dev")) (.ok ("x")) badParse

/-- C8: build_sync_plan is a pure one-pass dispatch solely by status —
uploads collect exactly the LocalModified/NewLocal entries, downloads the
CloudModified/NewCloud ones, conflicts the Conflict ones, deletions_cloud
the DeletedLocal ones, deletions_local the DeletedCloud ones, Synced entries
contribute nothing — and consequently a Synced entry whose only change is a
differing local hash ends up, after detect_local_changes, with status
LocalModified and appears exactly once in uploads and in no other bucket. -/
theorem C8_plan_dispatch (files : List (String × FileState)) (m : SyncManifest)
    (lf : List (String × String × Int)) (p : String) (st : FileState)
    (h0 hsh : String) (tm : Int)
    (hndm : (m.files.map Prod.fst).Nodup) (hndlf : (lf.map Prod.fst).Nodup)
    (hl : m.files.lookup p = some st) (hs : st.status = FileStatus.Synced)
    (hh0 : st.local_hash = some h0) (hlf : lf.lookup p = some (hsh, tm))
    (hne : hsh ≠ h0) :
    (build_sync_plan files =
      { uploads := (files.filter (fun e => isUpload e.2.status)).map
          (fun e => toAction e.1 e.2),
        downloads := (files.filter (fun e => isDownload e.2.status)).map
          (fun e => toAction e.1 e.2),
        conflicts := (files.filter (fun e => isConflictS e.2.status)).map
          (fun e => toAction e.1 e.2),
        deletions_local := (files.filter (fun e => isDelLocal e.2.status)).map
          (fun e => toAction e.1 e.2),
        deletions_cloud := (files.filter (fun e => isDelCloud e.2.status)).map
          (fun e => toAction e.1 e.2) }) ∧
    ((detect_local_changes m lf).files.lookup p =
       some { st with local_hash := some hsh, local_modified := some tm,
                      status := FileStatus.LocalModified }) ∧
    ((build_sync_plan (detect_local_changes m lf).files).uploads.countP
       (fun a => a.path == p) = 1) ∧
    ((build_sync_plan (detect_local_changes m lf).files).downloads.countP
       (fun a => a.path == p) = 0) ∧
    ((build_sync_plan (detect_local_changes m lf).files).conflicts.countP
       (fun a => a.path == p) = 0) ∧
    ((build_sync_plan (detect_local_changes m lf).files).deletions_local.countP
       (fun a => a.path == p) = 0) ∧
    ((build_sync_plan (detect_local_changes m lf).files).deletions_cloud.countP
       (fun a => a.path == p) = 0) := by
  have hst : detectEntry lf p st =
      { st with local_hash := some hsh, local_modified := some tm,
                status := FileStatus.LocalModified } := by
    have hcond : st.local_hash ≠ some hsh := by
      rw [hh0]
      intro hcc
      exact hne (Option.some.inj hcc).symm
    simp only [detectEntry, hlf]
    unfold detectExisting
    rw [if_pos hcond]
    simp [hs]
  have hnd2 := detect_keys_nodup m lf hndm hndlf
  have hlook2 : (detect_local_changes m lf).files.lookup p =
      some { st with local_hash := some hsh, local_modified := some tm,
                     status := FileStatus.LocalModified } := by
    rw [detect_lookup m lf p st hl, hst]
  refine ⟨build_plan_buckets files, hlook2, ?_, ?_, ?_, ?_, ?_⟩
  · have hU : (build_sync_plan (detect_local_changes m lf).files).uploads =
        (((detect_local_changes m lf).files.filter
          (fun e => isUpload e.2.status)).map (fun e => toAction e.1 e.2)) := by
      rw [build_plan_buckets]
    rw [hU, countP_bucket (detect_local_changes m lf).files p _ hnd2 hlook2 isUpload]
    rfl
  · have hD : (build_sync_plan (detect_local_changes m lf).files).downloads =
        (((detect_local_changes m lf).files.filter
          (fun e => isDownload e.2.status)).map (fun e => toAction e.1 e.2)) := by
      rw [build_plan_buckets]
    rw [hD, countP_bucket (detect_local_changes m lf).files p _ hnd2 hlook2 isDownload]
    rfl
  · have hC : (build_sync_plan (detect_local_changes m lf).files).conflicts =
        (((detect_local_changes m lf).files.filter
          (fun e => isConflictS e.2.status)).map (fun e => toAction e.1 e.2)) := by
      rw [build_plan_buckets]
    rw [hC, countP_bucket (detect_local_changes m lf).files p _ hnd2 hlook2 isConflictS]
    rfl
  · have hDL : (build_sync_plan (detect_local_changes m lf).files).deletions_local =
        (((detect_local_changes m lf).files.filter
          (fun e => isDelLocal e.2.status)).map (fun e => toAction e.1 e.2)) := by
      rw [build_plan_buckets]
    rw [hDL, countP_bucket (detect_local_changes m lf).files p _ hnd2 hlook2 isDelLocal]
    rfl
  · have hDC : (build_sync_plan (detect_local_changes m lf).files).deletions_cloud =
        (((detect_local_changes m lf).files.filter
          (fun e => isDelCloud e.2.status)).map (fun e => toAction e.1 e.2)) := by
      rw [build_plan_buckets]
    rw [hDC, countP_bucket (detect_local_changes m lf).files p _ hnd2 hlook2 isDelCloud]
    rfl

/-- The local scan used by the C8 witness: the scanned hash h2 differs from
the recorded h1. -/
def lf8 : List (String × String × Int) := [("notes/m.json", ("h2", 9))]

/-- C8 witness: instantiated at the one-entry manifest c4bM (a Synced entry
with local_hash h1) and the scan lf8. -/
theorem C8_plan_dispatch_witness :
    ((detect_local_changes c4bM lf8).files.lookup ("notes/m.json") =
       some { stSy2 with local_hash := some "h2", local_modified := some 9,
                         status := FileStatus.LocalModified }) ∧
    ((build_sync_plan (detect_local_changes c4bM lf8).files).uploads.countP
       (fun a => a.path == ("notes/m.json" : String)) = 1) ∧
    ((build_sync_plan (detect_local_changes c4bM lf8).files).conflicts.countP
       (fun a => a.path == ("notes/m.json" : String)) = 0) :=
  have h := C8_plan_dispatch [] c4bM lf8 ("notes/m.json") stSy2 ("h1") ("h2") 9
    (by decide) (by decide) rfl rfl rfl rfl (by decide)
  ⟨h.2.1, h.2.2.1, h.2.2.2.2.1⟩

/-- C9: applying a resolution to a Conflict entry demotes its status by
choice — local and keep_both to LocalModified, cloud to CloudModified — and
after resolving with choice local the path appears exactly once in uploads
of the rebuilt plan and no longer appears in conflicts. -/
theorem C9_resolution_demotes (resMap : List (String × String))
    (files : List (String × FileState)) (resolutions : List (String × String))
    (p : String) (st : FileState) (hconf : st.status = FileStatus.Conflict)
    (hnd : (files.map Prod.fst).Nodup) (hl : files.lookup p = some st)
    (hres : resolutions.reverse.lookup p = some ("local")) :
    (resMap.lookup p = some ("local") →
       applyResolution resMap p st = { st with status := FileStatus.LocalModified }) ∧
    (resMap.lookup p = some ("cloud") →
       applyResolution resMap p st = { st with status := FileStatus.CloudModified }) ∧
    (resMap.lookup p = some ("keep_both") →
       applyResolution resMap p st = { st with status := FileStatus.LocalModified }) ∧
    ((apply_resolutions resolutions files).lookup p =
       some { st with status := FileStatus.LocalModified }) ∧
    ((build_sync_plan (apply_resolutions resolutions files)).uploads.countP
       (fun a => a.path == p) = 1) ∧
    ((build_sync_plan (apply_resolutions resolutions files)).conflicts.countP
       (fun a => a.path == p) = 0) := by
  have hcl : ¬ (("cloud" : String) = "local") := by decide
  have hkb : ¬ (("keep_both" : String) = "local") := by decide
  have hkc : ¬ (("keep_both" : String) = "cloud") := by decide
  have hlook2 : (apply_resolutions resolutions files).lookup p =
      some { st with status := FileStatus.LocalModified } := by
    unfold apply_resolutions
    rw [lookup_map_value (applyResolution resolutions.reverse) files p, hl]
    simp [applyResolution, hconf, hres]
  have hnd2 : ((apply_resolutions resolutions files).map Prod.fst).Nodup := by
    unfold apply_resolutions
    rw [keys_map_value]
    exact hnd
  refine ⟨?_, ?_, ?_, hlook2, ?_, ?_⟩
  · intro h
    simp [applyResolution, hconf, h]
  · intro h
    simp [applyResolution, hconf, h, hcl]
  · intro h
    simp [applyResolution, hconf, h, hkb, hkc]
  · have hU : (build_sync_plan (apply_resolutions resolutions files)).uploads =
        (((apply_resolutions resolutions files).filter
          (fun e => isUpload e.2.status)).map (fun e => toAction e.1 e.2)) := by
      rw [build_plan_buckets]
    rw [hU, countP_bucket (apply_resolutions resolutions files) p _ hnd2 hlook2 isUpload]
    rfl
  · have hC : (build_sync_plan (apply_resolutions resolutions files)).conflicts =
        (((apply_resolutions resolutions files).filter
          (fun e => isConflictS e.2.status)).map (fun e => toAction e.1 e.2)) := by
      rw [build_plan_buckets]
    rw [hC, countP_bucket (apply_resolutions resolutions files) p _ hnd2 hlook2 isConflictS]
    rfl

/-- The manifest entry list used by the C9 witness: one Conflict entry. -/
def files9 : List (String × FileState) := [("notes/f.json", stCf1)]

/-- The resolutions used by the C9 witness: resolve notes/f.json as local. -/
def res9 : List (String × String) := [("notes/f.json", "local")]

/-- C9 witness: after resolving the conflict with choice local the entry is
LocalModified, appears once in uploads and not in conflicts. -/
theorem C9_resolution_demotes_witness :
    ((apply_resolutions res9 files9).lookup ("notes/f.json") =
       some { stCf1 with status := FileStatus.LocalModified }) ∧
    ((build_sync_plan (apply_resolutions res9 files9)).uploads.countP
       (fun a => a.path == ("notes/f.json" : String)) = 1) ∧
    ((build_sync_plan (apply_resolutions res9 files9)).conflicts.countP
       (fun a => a.path == ("notes/f.json" : String)) = 0) :=
  have h := C9_resolution_demotes [] files9 res9 ("notes/f.json") stCf1 rfl
    (by decide) rfl rfl
  ⟨h.2.2.2.1, h.2.2.2.2.1, h.2.2.2.2.2⟩

end Logia
